import Mathlib

/-!
# Macie S3 bucket association handlers and the MediaLive service package

A shallow embedding of

* `internal/service/macie/s3_bucket_association.go` (the four CRUD handlers of
  `aws_macie_s3_bucket_association`), and
* `internal/service/medialive/service_package_gen.go` (the generated
  registration tables),

followed by theorems about them.

Modelling conventions.

* Go strings are Lean `String`s; a `*string` is an `Option String` and
  `aws.StringValue` reads it with `nil` as the empty string.
* The remote API is a `MacieConn`: one function per SDK operation, from the
  request struct to the outcome of the call.  Each handler calls each
  operation at most once, so this covers every behaviour of the API a handler
  can observe.
* A handler returns its diagnostics, the resulting `ResourceData` and the
  list of SDK calls it issued, in order.
* Logging (`log.Printf`) has no effect on any of these and is left out.
-/

namespace Macie

/-! ## Shapes of the AWS SDK (`service/macie`) -/

/-- The SDK constant `macie.ErrCodeInvalidInputException`. -/
def ErrCodeInvalidInputException : String := "InvalidInputException"

/-- The function `aws.StringValue`: the pointed-to string, or `""` for `nil`. -/
def StringValue : Option String → String
  | some s => s
  | none => ""

/-- The function `aws.String`: a non-nil pointer to the string. -/
def awsString (s : String) : Option String := some s

structure ClassificationType where
  Continuous : Option String
  OneTime : Option String
deriving DecidableEq, Repr

structure ClassificationTypeUpdate where
  Continuous : Option String
  OneTime : Option String
deriving DecidableEq, Repr

structure S3Resource where
  BucketName : Option String
  Prefix : Option String
deriving DecidableEq, Repr

structure S3ResourceClassification where
  BucketName : Option String
  ClassificationType : Option Macie.ClassificationType
  Prefix : Option String
deriving DecidableEq, Repr

structure S3ResourceClassificationUpdate where
  BucketName : Option String
  ClassificationTypeUpdate : Option Macie.ClassificationTypeUpdate
  Prefix : Option String
deriving DecidableEq, Repr

structure FailedS3Resource where
  ErrorCode : Option String
  ErrorMessage : Option String
  FailedItem : Option S3Resource
deriving DecidableEq, Repr

structure AssociateS3ResourcesInput where
  MemberAccountId : Option String
  S3Resources : List S3ResourceClassification
deriving DecidableEq, Repr

structure AssociateS3ResourcesOutput where
  FailedS3Resources : List FailedS3Resource
deriving DecidableEq, Repr

structure ListS3ResourcesInput where
  MemberAccountId : Option String
deriving DecidableEq, Repr

/-- One page of a listing; the handler reads only `S3Resources`. -/
structure ListS3ResourcesOutput where
  S3Resources : List S3ResourceClassification
deriving DecidableEq, Repr

structure UpdateS3ResourcesInput where
  MemberAccountId : Option String
  S3ResourcesUpdate : List S3ResourceClassificationUpdate
deriving DecidableEq, Repr

structure UpdateS3ResourcesOutput where
  FailedS3Resources : List FailedS3Resource
deriving DecidableEq, Repr

structure DisassociateS3ResourcesInput where
  AssociatedS3Resources : List S3Resource
  MemberAccountId : Option String
deriving DecidableEq, Repr

structure DisassociateS3ResourcesOutput where
  FailedS3Resources : List FailedS3Resource
deriving DecidableEq, Repr

/-- What a paginated listing delivers: the pages fetched successfully, in
order, and then either the end of the listing (`err = none`) or the error of
the fetch that failed. -/
structure ListS3ResourcesPages where
  pages : List ListS3ResourcesOutput
  err : Option String
deriving DecidableEq, Repr

/-- The Macie client (`meta.(*conns.AWSClient).MacieConn()`).  An `Except String`
outcome is the pair `(resp, err)` of the Go call: `.error e` is a non-nil `err`
with text `e`, `.ok resp` is a nil `err`. -/
structure MacieConn where
  AssociateS3ResourcesWithContext :
    AssociateS3ResourcesInput → Except String AssociateS3ResourcesOutput
  ListS3ResourcesPagesWithContext : ListS3ResourcesInput → ListS3ResourcesPages
  UpdateS3ResourcesWithContext :
    UpdateS3ResourcesInput → Except String UpdateS3ResourcesOutput
  DisassociateS3ResourcesWithContext :
    DisassociateS3ResourcesInput → Except String DisassociateS3ResourcesOutput

/-- An SDK call issued by a handler, with its request. -/
inductive Call where
  | AssociateS3Resources (req : AssociateS3ResourcesInput)
  | ListS3ResourcesPages (req : ListS3ResourcesInput)
  | UpdateS3Resources (req : UpdateS3ResourcesInput)
  | DisassociateS3Resources (req : DisassociateS3ResourcesInput)
deriving DecidableEq, Repr

/-- The pagination loop of the SDK's `ListS3ResourcesPagesWithContext`: `fn` is
called on each page in turn until it returns `false` or the pages run out; the
error of the listing is returned only if the loop reached it.  `fn` threads the
variables its closure captures as the state `s`. -/
def pagesLoop {σ : Type} (fn : ListS3ResourcesOutput → Bool → σ → σ × Bool) :
    List ListS3ResourcesOutput → Option String → σ → σ × Option String
  | [], err, s => (s, err)
  | page :: rest, err, s =>
    match fn page (rest.isEmpty && err.isNone) s with
    | (s', true) => pagesLoop fn rest err s'
    | (s', false) => (s', none)

/-! ## Shapes of the plugin SDK (`helper/schema`, `diag`) -/

inductive Severity where
  | Error
  | Warning
deriving DecidableEq, Repr

structure Diagnostic where
  Severity : Macie.Severity
  Summary : String
deriving DecidableEq, Repr

abbrev Diagnostics := List Diagnostic

/-- The method `Diagnostics.HasError`. -/
def Diagnostics.HasError (diags : Diagnostics) : Bool :=
  diags.any fun x => decide (x.Severity = Severity.Error)

/-- One element of the `classification_type` list of the schema. -/
structure ClassificationTypeElem where
  continuous : String
  one_time : String
deriving DecidableEq, Repr

/-- The `schema.ResourceData` of the resource: its ID and the values of the
four schema keys.  `classification_type_old` is the value in the prior state,
`classification_type` the value `d.Get` returns. -/
structure ResourceData where
  id : String
  bucket_name : String
  prefix_ : String
  member_account_id : String
  classification_type_old : List ClassificationTypeElem
  classification_type : List ClassificationTypeElem
deriving DecidableEq, Repr

/-- The method `d.GetOk` on a string key: the value, and whether it is set to a
non-zero value. -/
def GetOk (v : String) : String × Bool := (v, decide (v ≠ ""))

/-- The method `d.HasChange("classification_type")`. -/
def ResourceData.HasChangeClassificationType (d : ResourceData) : Bool :=
  decide (d.classification_type_old ≠ d.classification_type)

/-- The method `d.SetId`. -/
def ResourceData.SetId (d : ResourceData) (v : String) : ResourceData :=
  { d with id := v }

/-- The method `d.Set("classification_type", v)` on a value of the schema's
type: the value is stored and no error is returned. -/
def ResourceData.SetClassificationType (d : ResourceData)
    (v : List ClassificationTypeElem) : Except String ResourceData :=
  Except.ok { d with classification_type := v }

/-- Modelled from the spec: `sdkdiag.AppendErrorf` of `internal/errs/sdkdiag`,
which is not among the sources.  Errors get "a formatted message naming the
operation": one error diagnostic is appended whose summary is the format with
its single `%s` replaced by the argument.  Every format used by the handlers
ends in `%s`, so the format is given here by the text before it. -/
def AppendErrorf (diags : Diagnostics) (beforeArg : String) (arg : String) : Diagnostics :=
  diags ++ [{ Severity := Severity.Error, Summary := beforeArg ++ arg }]

/-- The functions of package `macie` that the handlers call and that are not
among the sources, together with the SDK's `String` method of a failed item
(what `%s` prints for it). -/
structure Helpers where
  expandClassificationType : ResourceData → Option ClassificationType
  expandClassificationTypeUpdate : ResourceData → Option ClassificationTypeUpdate
  flattenClassificationType : Option ClassificationType → List ClassificationTypeElem
  failedString : FailedS3Resource → String

/-- The function `strings.Contains` on the characters of the two strings. -/
def containsChars : List Char → List Char → Bool
  | [], sub => sub.isEmpty
  | c :: cs, sub => sub.isPrefixOf (c :: cs) || containsChars cs sub

/-- The function `strings.Contains`. -/
def stringsContains (s substr : String) : Bool := containsChars s.data substr.data

/-! ## The handlers -/

/-- What a handler returns: diagnostics, the resource data it leaves, and the
SDK calls it issued. -/
structure Result where
  diags : Diagnostics
  d : ResourceData
  calls : List Call
deriving DecidableEq, Repr

/-- The request built at lines 74-87. -/
def createRequest (h : Helpers) (d : ResourceData) : AssociateS3ResourcesInput :=
  let req : AssociateS3ResourcesInput :=
    { MemberAccountId := none
      S3Resources :=
        [{ BucketName := awsString d.bucket_name
           ClassificationType := h.expandClassificationType d
           Prefix := none }] }
  let req :=
    match GetOk d.member_account_id with
    | (v, true) => { req with MemberAccountId := awsString v }
    | (_, false) => req
  match GetOk d.prefix_ with
  | (v, true) =>
    { req with S3Resources := req.S3Resources.modifyHead fun r => { r with Prefix := awsString v } }
  | (_, false) => req

/-- The request built at lines 106-109. -/
def readRequest (d : ResourceData) : ListS3ResourcesInput :=
  let req : ListS3ResourcesInput := { MemberAccountId := none }
  match GetOk d.member_account_id with
  | (v, true) => { req with MemberAccountId := awsString v }
  | (_, false) => req

/-- The `for ... range page.S3Resources` loop of the callback at lines 116-123:
the new value of `res` and the callback's return value. -/
def rangeS3Resources (bucketName pfx : String) :
    List S3ResourceClassification → Option S3ResourceClassification →
      Option S3ResourceClassification × Bool
  | [], res => (res, true)
  | v :: vs, res =>
    if StringValue v.BucketName = bucketName ∧ StringValue v.Prefix = pfx then
      (some v, false)
    else
      rangeS3Resources bucketName pfx vs res

/-- The callback passed to the paginator at line 115. -/
def readCallback (bucketName pfx : String) (page : ListS3ResourcesOutput) (_lastPage : Bool)
    (res : Option S3ResourceClassification) : Option S3ResourceClassification × Bool :=
  rangeS3Resources bucketName pfx page.S3Resources res

/-- The handler `resourceS3BucketAssociationRead`. -/
def resourceS3BucketAssociationRead (h : Helpers) (d : ResourceData) (conn : MacieConn) :
    Result :=
  let diags : Diagnostics := []
  let req := readRequest d
  let bucketName := d.bucket_name
  let pfx := d.prefix_
  let listing := conn.ListS3ResourcesPagesWithContext req
  let calls := [Call.ListS3ResourcesPages req]
  match pagesLoop (readCallback bucketName pfx) listing.pages listing.err none with
  | (_, some err) =>
    { diags := AppendErrorf diags "listing Macie S3 bucket associations: " err
      d := d, calls := calls }
  | (none, none) => { diags := diags, d := d.SetId "", calls := calls }
  | (some res, none) =>
    match d.SetClassificationType (h.flattenClassificationType res.ClassificationType) with
    | Except.error err =>
      { diags := AppendErrorf diags "setting classification_type: " err, d := d, calls := calls }
    | Except.ok d' => { diags := diags, d := d', calls := calls }

/-- The ID formatted at line 98: `fmt.Sprintf("%s/%s", bucket_name, prefix)`. -/
def createId (d : ResourceData) : String := d.bucket_name ++ "/" ++ d.prefix_

/-- The handler `resourceS3BucketAssociationCreate`. -/
def resourceS3BucketAssociationCreate (h : Helpers) (d : ResourceData) (conn : MacieConn) :
    Result :=
  let diags : Diagnostics := []
  let req := createRequest h d
  let calls := [Call.AssociateS3Resources req]
  match conn.AssociateS3ResourcesWithContext req with
  | Except.error err =>
    { diags := AppendErrorf diags "creating Macie S3 bucket association: " err
      d := d, calls := calls }
  | Except.ok resp =>
    match resp.FailedS3Resources with
    | failed :: _ =>
      { diags := AppendErrorf diags "creating Macie S3 bucket association: " (h.failedString failed)
        d := d, calls := calls }
    | [] =>
      let d := d.SetId (createId d)
      let r := resourceS3BucketAssociationRead h d conn
      { diags := diags ++ r.diags, d := r.d, calls := calls ++ r.calls }

/-- The request built at lines 147-160. -/
def updateRequest (h : Helpers) (d : ResourceData) : UpdateS3ResourcesInput :=
  let req : UpdateS3ResourcesInput :=
    { MemberAccountId := none
      S3ResourcesUpdate :=
        [{ BucketName := awsString d.bucket_name
           ClassificationTypeUpdate := h.expandClassificationTypeUpdate d
           Prefix := none }] }
  let req :=
    match GetOk d.member_account_id with
    | (v, true) => { req with MemberAccountId := awsString v }
    | (_, false) => req
  match GetOk d.prefix_ with
  | (v, true) =>
    { req with
      S3ResourcesUpdate := req.S3ResourcesUpdate.modifyHead fun r => { r with Prefix := awsString v } }
  | (_, false) => req

/-- The handler `resourceS3BucketAssociationUpdate`. -/
def resourceS3BucketAssociationUpdate (h : Helpers) (d : ResourceData) (conn : MacieConn) :
    Result :=
  let diags : Diagnostics := []
  let continue_ (calls : List Call) : Result :=
    let r := resourceS3BucketAssociationRead h d conn
    { diags := diags ++ r.diags, d := r.d, calls := calls ++ r.calls }
  if d.HasChangeClassificationType then
    let req := updateRequest h d
    let calls := [Call.UpdateS3Resources req]
    match conn.UpdateS3ResourcesWithContext req with
    | Except.error err =>
      { diags := AppendErrorf diags "updating Macie S3 bucket association: " err
        d := d, calls := calls }
    | Except.ok resp =>
      match resp.FailedS3Resources with
      | failed :: _ =>
        { diags := AppendErrorf diags "updating Macie S3 bucket association: " (h.failedString failed)
          d := d, calls := calls }
      | [] => continue_ calls
  else
    continue_ []

/-- The request built at lines 181-193. -/
def deleteRequest (d : ResourceData) : DisassociateS3ResourcesInput :=
  let req : DisassociateS3ResourcesInput :=
    { AssociatedS3Resources := [{ BucketName := awsString d.bucket_name, Prefix := none }]
      MemberAccountId := none }
  let req :=
    match GetOk d.member_account_id with
    | (v, true) => { req with MemberAccountId := awsString v }
    | (_, false) => req
  match GetOk d.prefix_ with
  | (v, true) =>
    { req with
      AssociatedS3Resources :=
        req.AssociatedS3Resources.modifyHead fun r => { r with Prefix := awsString v } }
  | (_, false) => req

/-- The test at lines 208-209 on the first failed item. -/
def notAssociated (failed : FailedS3Resource) : Bool :=
  decide (StringValue failed.ErrorCode = ErrCodeInvalidInputException) &&
    stringsContains (StringValue failed.ErrorMessage) "is not associated with Macie"

/-- The handler `resourceS3BucketAssociationDelete`. -/
def resourceS3BucketAssociationDelete (h : Helpers) (d : ResourceData) (conn : MacieConn) :
    Result :=
  let diags : Diagnostics := []
  let req := deleteRequest d
  let calls := [Call.DisassociateS3Resources req]
  match conn.DisassociateS3ResourcesWithContext req with
  | Except.error err =>
    { diags := AppendErrorf diags "deleting Macie S3 bucket association: " err
      d := d, calls := calls }
  | Except.ok resp =>
    match resp.FailedS3Resources with
    | failed :: _ =>
      if notAssociated failed then
        { diags := diags, d := d, calls := calls }
      else
        { diags := AppendErrorf diags "deleting Macie S3 bucket association: " (h.failedString failed)
          d := d, calls := calls }
    | [] => { diags := diags, d := d, calls := calls }

/-- The test of the callback at line 117, as a proposition on a listed resource:
its bucket name and prefix, `nil` read as `""`, are the configured ones. -/
def Matches (d : ResourceData) (v : S3ResourceClassification) : Prop :=
  StringValue v.BucketName = d.bucket_name ∧ StringValue v.Prefix = d.prefix_

instance (d : ResourceData) (v : S3ResourceClassification) : Decidable (Matches d v) := by
  unfold Matches; infer_instance

/-- All resources of a listing, in page order and, within a page, item order. -/
def listedResources (l : ListS3ResourcesPages) : List S3ResourceClassification :=
  l.pages.flatMap fun page => page.S3Resources

/-- A string pointer as the request builders set it from a `GetOk` result:
`nil` for the empty string, else a pointer to it. -/
def optString (v : String) : Option String := if v = "" then none else some v

/-! ## Sample inputs -/

/-- A sample instance of the helper functions. -/
def sampleHelpers : Helpers where
  expandClassificationType := fun d =>
    match d.classification_type with
    | e :: _ => some { Continuous := some e.continuous, OneTime := some e.one_time }
    | [] => some { Continuous := some "FULL", OneTime := some "NONE" }
  expandClassificationTypeUpdate := fun d =>
    match d.classification_type with
    | e :: _ => some { Continuous := some e.continuous, OneTime := some e.one_time }
    | [] => none
  flattenClassificationType := fun t =>
    match t with
    | some t => [{ continuous := StringValue t.Continuous, one_time := StringValue t.OneTime }]
    | none => []
  failedString := fun f => StringValue f.ErrorCode ++ ": " ++ StringValue f.ErrorMessage

/-- A sample configuration: a bucket without prefix or member account, not yet created. -/
def sampleData : ResourceData where
  id := ""
  bucket_name := "tf-macie-example-002"
  prefix_ := ""
  member_account_id := ""
  classification_type_old := []
  classification_type := []

/-- A sample configuration with a prefix, a member account and a pending change
of `classification_type`. -/
def sampleChanged : ResourceData where
  id := "tf-macie-example-002/data/"
  bucket_name := "tf-macie-example-002"
  prefix_ := "data/"
  member_account_id := "123456789012"
  classification_type_old := [{ continuous := "FULL", one_time := "NONE" }]
  classification_type := [{ continuous := "FULL", one_time := "FULL" }]

/-- The failed item quoted in the comment at lines 201-207. -/
def sampleNotAssociated : FailedS3Resource where
  ErrorCode := some "InvalidInputException"
  ErrorMessage := some
    "The request was rejected. The specified S3 resource (bucket or prefix) is not associated with Macie."
  FailedItem := some { BucketName := some "tf-macie-example-002", Prefix := none }

/-- A failed item of another kind. -/
def sampleAccessDenied : FailedS3Resource where
  ErrorCode := some "AccessDeniedException"
  ErrorMessage := some "You do not have required permissions to access the requested resource."
  FailedItem := some { BucketName := some "tf-macie-example-002", Prefix := none }

/-- A listed resource matching `sampleData`. -/
def sampleListed : S3ResourceClassification where
  BucketName := some "tf-macie-example-002"
  ClassificationType := some { Continuous := some "FULL", OneTime := some "NONE" }
  Prefix := none

/-- A listed resource of another bucket. -/
def sampleOther : S3ResourceClassification where
  BucketName := some "another-bucket"
  ClassificationType := some { Continuous := some "FULL", OneTime := some "FULL" }
  Prefix := some "logs/"

/-- A client whose calls return the given outcomes whatever the request. -/
def sampleConn (associate : Except String AssociateS3ResourcesOutput)
    (listing : ListS3ResourcesPages) (update : Except String UpdateS3ResourcesOutput)
    (disassociate : Except String DisassociateS3ResourcesOutput) : MacieConn where
  AssociateS3ResourcesWithContext := fun _ => associate
  ListS3ResourcesPagesWithContext := fun _ => listing
  UpdateS3ResourcesWithContext := fun _ => update
  DisassociateS3ResourcesWithContext := fun _ => disassociate

/-- A client on which every call succeeds and the listing is empty. -/
def connAllOk : MacieConn :=
  sampleConn (Except.ok { FailedS3Resources := [] }) { pages := [], err := none }
    (Except.ok { FailedS3Resources := [] }) (Except.ok { FailedS3Resources := [] })

/-- A client whose listing has the matching resource on its second page. -/
def connListed : MacieConn :=
  sampleConn (Except.ok { FailedS3Resources := [] })
    { pages := [{ S3Resources := [sampleOther] }, { S3Resources := [sampleListed, sampleOther] }]
      err := none }
    (Except.ok { FailedS3Resources := [] }) (Except.ok { FailedS3Resources := [] })

/-- A client whose disassociate call reports the resource as not associated. -/
def connNotAssociated : MacieConn :=
  sampleConn (Except.ok { FailedS3Resources := [] }) { pages := [], err := none }
    (Except.ok { FailedS3Resources := [] })
    (Except.ok { FailedS3Resources := [sampleNotAssociated] })

/-- A client whose disassociate call reports two failed items, the first being
the not-associated one. -/
def connTwoFailed : MacieConn :=
  sampleConn (Except.ok { FailedS3Resources := [] }) { pages := [], err := none }
    (Except.ok { FailedS3Resources := [] })
    (Except.ok { FailedS3Resources := [sampleNotAssociated, sampleAccessDenied] })

/-- A client whose associate, update and disassociate calls return an error. -/
def connErrors : MacieConn :=
  sampleConn (Except.error "RequestError: send request failed") { pages := [], err := none }
    (Except.error "RequestError: send request failed")
    (Except.error "RequestError: send request failed")

/-- A client whose associate, update and disassociate calls report a failed item
of another kind. -/
def connFailedItem : MacieConn :=
  sampleConn (Except.ok { FailedS3Resources := [sampleAccessDenied] }) { pages := [], err := none }
    (Except.ok { FailedS3Resources := [sampleAccessDenied] })
    (Except.ok { FailedS3Resources := [sampleAccessDenied] })

end Macie

namespace MediaLive

/-! ## The generated service package of MediaLive -/

/-- The constructors of SDK resources named in the table (`func() *schema.Resource`). -/
inductive SDKFactory where
  | ResourceChannel
  | ResourceInput
  | ResourceInputSecurityGroup
  | ResourceMultiplex
deriving DecidableEq, Repr

/-- The constructors of framework resources named in the table. -/
inductive FrameworkResourceFactory where
  | newResourceMultiplexProgram
deriving DecidableEq, Repr

/-- The constructors of framework data sources; the package names none. -/
inductive FrameworkDataSourceFactory where
deriving Repr

structure ServicePackageFrameworkDataSource where
  Factory : FrameworkDataSourceFactory

structure ServicePackageFrameworkResource where
  Factory : FrameworkResourceFactory
deriving DecidableEq, Repr

structure ServicePackageSDKDataSource where
  Factory : SDKFactory
  TypeName : String
deriving DecidableEq, Repr

structure ServicePackageSDKResource where
  Factory : SDKFactory
  TypeName : String
deriving DecidableEq, Repr

/-- The receiver type `servicePackage`, a struct without fields. -/
structure servicePackage where
deriving DecidableEq, Repr

/-- The method `FrameworkDataSources`. -/
def servicePackage.FrameworkDataSources {Context : Type} (_p : servicePackage) (_ctx : Context) :
    List ServicePackageFrameworkDataSource :=
  []

/-- The method `FrameworkResources`. -/
def servicePackage.FrameworkResources {Context : Type} (_p : servicePackage) (_ctx : Context) :
    List ServicePackageFrameworkResource :=
  [{ Factory := FrameworkResourceFactory.newResourceMultiplexProgram }]

/-- The method `SDKDataSources`. -/
def servicePackage.SDKDataSources {Context : Type} (_p : servicePackage) (_ctx : Context) :
    List ServicePackageSDKDataSource :=
  []

/-- The method `SDKResources`. -/
def servicePackage.SDKResources {Context : Type} (_p : servicePackage) (_ctx : Context) :
    List ServicePackageSDKResource :=
  [ { Factory := SDKFactory.ResourceChannel, TypeName := "aws_medialive_channel" },
    { Factory := SDKFactory.ResourceInput, TypeName := "aws_medialive_input" },
    { Factory := SDKFactory.ResourceInputSecurityGroup
      TypeName := "aws_medialive_input_security_group" },
    { Factory := SDKFactory.ResourceMultiplex, TypeName := "aws_medialive_multiplex" } ]

/-- The package variable `ServicePackage`. -/
def ServicePackage : servicePackage := {}

end MediaLive

namespace Macie

/-! ## Auxiliary lemmas -/

theorem containsChars_iff (s sub : List Char) : containsChars s sub = true ↔ sub <:+: s := by
  induction s with
  | nil => cases sub <;> simp [containsChars]
  | cons c cs ih =>
    rw [containsChars, Bool.or_eq_true, ih, List.infix_cons_iff, List.isPrefixOf_iff_prefix]

theorem stringsContains_iff (s sub : String) :
    stringsContains s sub = true ↔ ∃ pre post : String, s = pre ++ sub ++ post := by
  unfold stringsContains
  rw [containsChars_iff]
  constructor
  · rintro ⟨a, b, hab⟩
    refine ⟨⟨a⟩, ⟨b⟩, ?_⟩
    apply String.ext
    simp [String.data_append, hab]
  · rintro ⟨pre, post, rfl⟩
    exact ⟨pre.data, post.data, by simp [String.data_append]⟩

theorem rangeS3Resources_eq (d : ResourceData) (vs : List S3ResourceClassification)
    (res : Option S3ResourceClassification) :
    rangeS3Resources d.bucket_name d.prefix_ vs res =
      match vs.find? fun v => decide (Matches d v) with
      | some v => (some v, false)
      | none => (res, true) := by
  induction vs with
  | nil => rfl
  | cons v vs ih =>
    by_cases hm : Matches d v
    · have hm' := hm
      unfold Matches at hm'
      simp [rangeS3Resources, hm, hm']
    · have hm' := hm
      unfold Matches at hm'
      simp [rangeS3Resources, hm, hm', ih]

theorem pagesLoop_readCallback (d : ResourceData) (pages : List ListS3ResourcesOutput)
    (err : Option String) (res : Option S3ResourceClassification) :
    pagesLoop (readCallback d.bucket_name d.prefix_) pages err res =
      match (pages.flatMap fun page => page.S3Resources).find? fun v => decide (Matches d v) with
      | some v => (some v, none)
      | none => (res, err) := by
  induction pages generalizing res with
  | nil => rfl
  | cons page rest ih =>
    rw [pagesLoop, readCallback, rangeS3Resources_eq, List.flatMap_cons, List.find?_append]
    cases hf : page.S3Resources.find? fun v => decide (Matches d v) with
    | some v => simp
    | none => simp [ih]

theorem find?_first {α : Type} (p : α → Bool) (pre post : List α) (v : α)
    (hv : p v = true) (hpre : ∀ u ∈ pre, p u = false) :
    (pre ++ v :: post).find? p = some v := by
  induction pre with
  | nil => simp [hv]
  | cons u us ih =>
    have hu := hpre u (List.mem_cons_self _ _)
    simp only [List.cons_append, List.find?_cons, hu]
    exact ih fun w hw => hpre w (List.mem_cons_of_mem _ hw)

/-- The handler `Read` when the listing reaches a first matching resource. -/
theorem read_found (h : Helpers) (d : ResourceData) (conn : MacieConn)
    (pre post : List S3ResourceClassification) (v : S3ResourceClassification)
    (hl : listedResources (conn.ListS3ResourcesPagesWithContext (readRequest d)) = pre ++ v :: post)
    (hv : Matches d v) (hpre : ∀ u ∈ pre, ¬ Matches d u) :
    resourceS3BucketAssociationRead h d conn =
      { diags := []
        d := { d with classification_type := h.flattenClassificationType v.ClassificationType }
        calls := [Call.ListS3ResourcesPages (readRequest d)] } := by
  unfold listedResources at hl
  have hf := find?_first (fun u => decide (Matches d u)) pre post v (by simpa using hv)
    (by simpa using hpre)
  simp only [resourceS3BucketAssociationRead, pagesLoop_readCallback, hl, hf,
    ResourceData.SetClassificationType]

/-- The handler `Read` when no listed resource matches. -/
theorem read_not_found (h : Helpers) (d : ResourceData) (conn : MacieConn)
    (hno : ∀ u ∈ listedResources (conn.ListS3ResourcesPagesWithContext (readRequest d)),
      ¬ Matches d u) :
    resourceS3BucketAssociationRead h d conn =
      match (conn.ListS3ResourcesPagesWithContext (readRequest d)).err with
      | some err =>
        { diags := [{ Severity := Severity.Error
                      Summary := "listing Macie S3 bucket associations: " ++ err }]
          d := d
          calls := [Call.ListS3ResourcesPages (readRequest d)] }
      | none =>
        { diags := [], d := d.SetId "", calls := [Call.ListS3ResourcesPages (readRequest d)] } := by
  unfold listedResources at hno
  have hf : ((conn.ListS3ResourcesPagesWithContext (readRequest d)).pages.flatMap
      fun page => page.S3Resources).find? (fun v => decide (Matches d v)) = none := by
    rw [List.find?_eq_none]
    intro u hu
    simpa using hno u hu
  simp only [resourceS3BucketAssociationRead, pagesLoop_readCallback, hf]
  cases (conn.ListS3ResourcesPagesWithContext (readRequest d)).err <;> simp [AppendErrorf]

theorem split_at_slash (l₁ l₂ r₁ r₂ : List Char) (h₁ : '/' ∉ l₁) (h₂ : '/' ∉ l₂)
    (h : l₁ ++ '/' :: r₁ = l₂ ++ '/' :: r₂) : l₁ = l₂ ∧ r₁ = r₂ := by
  induction l₁ generalizing l₂ with
  | nil =>
    cases l₂ with
    | nil => simpa using h
    | cons c cs =>
      simp only [List.nil_append, List.cons_append, List.cons.injEq] at h
      exact absurd (h.1 ▸ List.mem_cons_self _ _) h₂
  | cons a as ih =>
    cases l₂ with
    | nil =>
      simp only [List.nil_append, List.cons_append, List.cons.injEq] at h
      exact absurd (h.1 ▸ List.mem_cons_self _ _) h₁
    | cons c cs =>
      simp only [List.cons_append, List.cons.injEq] at h
      obtain ⟨hac, hrest⟩ := h
      have := ih cs (fun hm => h₁ (List.mem_cons_of_mem _ hm))
        (fun hm => h₂ (List.mem_cons_of_mem _ hm)) hrest
      exact ⟨by rw [hac, this.1], this.2⟩

theorem notAssociated_iff (failed : FailedS3Resource) :
    notAssociated failed = true ↔
      failed.ErrorCode = some "InvalidInputException" ∧
        ∃ msg pre post : String, failed.ErrorMessage = some msg ∧
          msg = pre ++ "is not associated with Macie" ++ post := by
  unfold notAssociated
  rw [Bool.and_eq_true, stringsContains_iff, decide_eq_true_iff]
  constructor
  · rintro ⟨hc, pre, post, hm⟩
    refine ⟨?_, ?_⟩
    · cases hcode : failed.ErrorCode with
      | none => rw [hcode] at hc; exact absurd hc (by decide)
      | some c => rw [hcode] at hc; exact congrArg some hc
    · cases hmsg : failed.ErrorMessage with
      | none =>
        rw [hmsg] at hm
        have hlen := congrArg String.length hm
        simp only [StringValue, String.length_append] at hlen
        have h0 : "".length = 0 := rfl
        have h28 : "is not associated with Macie".length = 28 := by decide
        omega
      | some m => rw [hmsg] at hm; exact ⟨m, pre, post, rfl, hm⟩
  · rintro ⟨hc, msg, pre, post, hm, hsplit⟩
    rw [hc, hm]
    exact ⟨rfl, pre, post, hsplit⟩

theorem delete_ok_failed (h : Helpers) (d : ResourceData) (conn : MacieConn)
    (resp : DisassociateS3ResourcesOutput) (failed : FailedS3Resource)
    (rest : List FailedS3Resource)
    (hcall : conn.DisassociateS3ResourcesWithContext (deleteRequest d) = Except.ok resp)
    (hfailed : resp.FailedS3Resources = failed :: rest) :
    resourceS3BucketAssociationDelete h d conn =
      if notAssociated failed then
        { diags := [], d := d, calls := [Call.DisassociateS3Resources (deleteRequest d)] }
      else
        { diags := [{ Severity := Severity.Error
                      Summary := "deleting Macie S3 bucket association: " ++ h.failedString failed }]
          d := d
          calls := [Call.DisassociateS3Resources (deleteRequest d)] } := by
  simp only [resourceS3BucketAssociationDelete, hcall, hfailed, AppendErrorf, List.nil_append]

theorem createRequest_eq (h : Helpers) (d : ResourceData) :
    createRequest h d =
      { MemberAccountId := optString d.member_account_id
        S3Resources :=
          [{ BucketName := some d.bucket_name
             ClassificationType := h.expandClassificationType d
             Prefix := optString d.prefix_ }] } := by
  by_cases hm : d.member_account_id = "" <;> by_cases hp : d.prefix_ = "" <;>
    simp [createRequest, GetOk, optString, awsString, hm, hp, List.modifyHead]

theorem updateRequest_eq (h : Helpers) (d : ResourceData) :
    updateRequest h d =
      { MemberAccountId := optString d.member_account_id
        S3ResourcesUpdate :=
          [{ BucketName := some d.bucket_name
             ClassificationTypeUpdate := h.expandClassificationTypeUpdate d
             Prefix := optString d.prefix_ }] } := by
  by_cases hm : d.member_account_id = "" <;> by_cases hp : d.prefix_ = "" <;>
    simp [updateRequest, GetOk, optString, awsString, hm, hp, List.modifyHead]

theorem deleteRequest_eq (d : ResourceData) :
    deleteRequest d =
      { AssociatedS3Resources :=
          [{ BucketName := some d.bucket_name, Prefix := optString d.prefix_ }]
        MemberAccountId := optString d.member_account_id } := by
  by_cases hm : d.member_account_id = "" <;> by_cases hp : d.prefix_ = "" <;>
    simp [deleteRequest, GetOk, optString, awsString, hm, hp, List.modifyHead]

theorem readRequest_eq (d : ResourceData) :
    readRequest d = { MemberAccountId := optString d.member_account_id } := by
  by_cases hm : d.member_account_id = "" <;>
    simp [readRequest, GetOk, optString, awsString, hm]

theorem read_calls (h : Helpers) (d : ResourceData) (conn : MacieConn) :
    (resourceS3BucketAssociationRead h d conn).calls =
      [Call.ListS3ResourcesPages (readRequest d)] := by
  unfold resourceS3BucketAssociationRead
  simp only []
  split
  · rfl
  · rfl
  · simp only [ResourceData.SetClassificationType]

/-- The ID after `Read`: unchanged, unless the listing ended without error and
without a match, in which case it is empty. -/
theorem read_id (h : Helpers) (d : ResourceData) (conn : MacieConn) :
    (resourceS3BucketAssociationRead h d conn).d.id =
      if (conn.ListS3ResourcesPagesWithContext (readRequest d)).err = none ∧
          ∀ u ∈ listedResources (conn.ListS3ResourcesPagesWithContext (readRequest d)),
            ¬ Matches d u then
        ""
      else
        d.id := by
  by_cases hno : ∀ u ∈ listedResources (conn.ListS3ResourcesPagesWithContext (readRequest d)),
      ¬ Matches d u
  · rw [read_not_found h d conn hno]
    cases herr : (conn.ListS3ResourcesPagesWithContext (readRequest d)).err with
    | none => simp only [ResourceData.SetId, true_and]; rw [if_pos hno]
    | some e => simp
  · rw [if_neg (fun hc => hno hc.2)]
    have hex : ∃ u ∈ listedResources (conn.ListS3ResourcesPagesWithContext (readRequest d)),
        Matches d u := by
      by_contra hc
      exact hno fun u hu hm => hc ⟨u, hu, hm⟩
    obtain ⟨u, hu, hm⟩ := hex
    have hsome : ((listedResources (conn.ListS3ResourcesPagesWithContext (readRequest d))).find?
        fun v => decide (Matches d v)).isSome = true := by
      rw [List.find?_isSome]
      exact ⟨u, hu, by simpa using hm⟩
    obtain ⟨v, hv⟩ := Option.isSome_iff_exists.mp hsome
    unfold listedResources at hv
    simp only [resourceS3BucketAssociationRead, pagesLoop_readCallback, hv,
      ResourceData.SetClassificationType]

theorem create_ok_empty (h : Helpers) (d : ResourceData) (conn : MacieConn)
    (resp : AssociateS3ResourcesOutput)
    (hcall : conn.AssociateS3ResourcesWithContext (createRequest h d) = Except.ok resp)
    (hempty : resp.FailedS3Resources = []) :
    resourceS3BucketAssociationCreate h d conn =
      { diags := (resourceS3BucketAssociationRead h (d.SetId (createId d)) conn).diags
        d := (resourceS3BucketAssociationRead h (d.SetId (createId d)) conn).d
        calls := Call.AssociateS3Resources (createRequest h d) ::
          (resourceS3BucketAssociationRead h (d.SetId (createId d)) conn).calls } := by
  simp only [resourceS3BucketAssociationCreate, hcall, hempty, List.nil_append,
    List.singleton_append]

theorem create_failed (h : Helpers) (d : ResourceData) (conn : MacieConn) (text : String)
    (hfail : conn.AssociateS3ResourcesWithContext (createRequest h d) = Except.error text ∨
      ∃ resp failed rest,
        conn.AssociateS3ResourcesWithContext (createRequest h d) = Except.ok resp ∧
          resp.FailedS3Resources = failed :: rest ∧ text = h.failedString failed) :
    resourceS3BucketAssociationCreate h d conn =
      { diags := [{ Severity := Severity.Error
                    Summary := "creating Macie S3 bucket association: " ++ text }]
        d := d
        calls := [Call.AssociateS3Resources (createRequest h d)] } := by
  rcases hfail with herr | ⟨resp, failed, rest, hcall, hfailed, rfl⟩
  · simp only [resourceS3BucketAssociationCreate, herr, AppendErrorf, List.nil_append]
  · simp only [resourceS3BucketAssociationCreate, hcall, hfailed, AppendErrorf, List.nil_append]

theorem update_unchanged (h : Helpers) (d : ResourceData) (conn : MacieConn)
    (hc : d.HasChangeClassificationType = false) :
    resourceS3BucketAssociationUpdate h d conn = resourceS3BucketAssociationRead h d conn := by
  simp [resourceS3BucketAssociationUpdate, hc]

theorem update_ok_empty (h : Helpers) (d : ResourceData) (conn : MacieConn)
    (resp : UpdateS3ResourcesOutput)
    (hc : d.HasChangeClassificationType = true)
    (hcall : conn.UpdateS3ResourcesWithContext (updateRequest h d) = Except.ok resp)
    (hempty : resp.FailedS3Resources = []) :
    resourceS3BucketAssociationUpdate h d conn =
      { diags := (resourceS3BucketAssociationRead h d conn).diags
        d := (resourceS3BucketAssociationRead h d conn).d
        calls := Call.UpdateS3Resources (updateRequest h d) ::
          (resourceS3BucketAssociationRead h d conn).calls } := by
  simp [resourceS3BucketAssociationUpdate, hc, hcall, hempty]

theorem update_failed (h : Helpers) (d : ResourceData) (conn : MacieConn) (text : String)
    (hc : d.HasChangeClassificationType = true)
    (hfail : conn.UpdateS3ResourcesWithContext (updateRequest h d) = Except.error text ∨
      ∃ resp failed rest,
        conn.UpdateS3ResourcesWithContext (updateRequest h d) = Except.ok resp ∧
          resp.FailedS3Resources = failed :: rest ∧ text = h.failedString failed) :
    resourceS3BucketAssociationUpdate h d conn =
      { diags := [{ Severity := Severity.Error
                    Summary := "updating Macie S3 bucket association: " ++ text }]
        d := d
        calls := [Call.UpdateS3Resources (updateRequest h d)] } := by
  rcases hfail with herr | ⟨resp, failed, rest, hcall, hfailed, rfl⟩
  · simp [resourceS3BucketAssociationUpdate, hc, herr, AppendErrorf]
  · simp [resourceS3BucketAssociationUpdate, hc, hcall, hfailed, AppendErrorf]

theorem delete_calls (h : Helpers) (d : ResourceData) (conn : MacieConn) :
    (resourceS3BucketAssociationDelete h d conn).calls =
      [Call.DisassociateS3Resources (deleteRequest d)] := by
  unfold resourceS3BucketAssociationDelete
  simp only []
  split
  · rfl
  · split
    · split <;> rfl
    · rfl

/-! ## The delete path -/

/-- C1: when the disassociate call returns without a call error and its first
failed item has error code `InvalidInputException` and a message containing
"is not associated with Macie", Delete returns no diagnostic; when the first
failed item has another code, a message without that substring, a nil code or a
nil message, Delete returns an error diagnostic. -/
theorem delete_already_disassociated (h : Helpers) (d : ResourceData) (conn : MacieConn)
    (resp : DisassociateS3ResourcesOutput) (failed : FailedS3Resource)
    (rest : List FailedS3Resource)
    (hcall : conn.DisassociateS3ResourcesWithContext (deleteRequest d) = Except.ok resp)
    (hfailed : resp.FailedS3Resources = failed :: rest) :
    ((failed.ErrorCode = some "InvalidInputException" ∧
        ∃ msg pre post : String, failed.ErrorMessage = some msg ∧
          msg = pre ++ "is not associated with Macie" ++ post) →
      (resourceS3BucketAssociationDelete h d conn).diags = []) ∧
    (failed.ErrorCode ≠ some "InvalidInputException" →
      (resourceS3BucketAssociationDelete h d conn).diags.HasError = true) ∧
    ((∀ msg, failed.ErrorMessage = some msg →
        ¬ ∃ pre post : String, msg = pre ++ "is not associated with Macie" ++ post) →
      (resourceS3BucketAssociationDelete h d conn).diags.HasError = true) ∧
    (failed.ErrorCode = none →
      (resourceS3BucketAssociationDelete h d conn).diags.HasError = true) ∧
    (failed.ErrorMessage = none →
      (resourceS3BucketAssociationDelete h d conn).diags.HasError = true) := by
  have hd := delete_ok_failed h d conn resp failed rest hcall hfailed
  have hno : notAssociated failed = false →
      (resourceS3BucketAssociationDelete h d conn).diags.HasError = true := by
    intro hn
    rw [hd, hn]
    simp [Diagnostics.HasError]
  have hiff := notAssociated_iff failed
  refine ⟨?_, ?_, ?_, ?_, ?_⟩
  · intro hc
    rw [hd, hiff.mpr hc]
    rfl
  · intro hc
    apply hno
    rw [Bool.eq_false_iff]
    exact fun hn => hc (hiff.mp hn).1
  · intro hm
    apply hno
    rw [Bool.eq_false_iff]
    intro hn
    obtain ⟨_, msg, pre, post, hmsg, hsplit⟩ := hiff.mp hn
    exact hm msg hmsg ⟨pre, post, hsplit⟩
  · intro hc
    apply hno
    rw [Bool.eq_false_iff]
    intro hn
    have := (hiff.mp hn).1
    rw [hc] at this
    exact absurd this (by simp)
  · intro hm
    apply hno
    rw [Bool.eq_false_iff]
    intro hn
    obtain ⟨_, msg, _, _, hmsg, _⟩ := hiff.mp hn
    rw [hm] at hmsg
    exact absurd hmsg (by simp)

/-- C1, at the failed item quoted in the source: Delete returns no diagnostic. -/
theorem delete_already_disassociated_witness :
    connNotAssociated.DisassociateS3ResourcesWithContext (deleteRequest sampleData) =
        Except.ok { FailedS3Resources := [sampleNotAssociated] } ∧
      (resourceS3BucketAssociationDelete sampleHelpers sampleData connNotAssociated).diags = [] :=
  ⟨rfl,
    (delete_already_disassociated sampleHelpers sampleData connNotAssociated
      { FailedS3Resources := [sampleNotAssociated] } sampleNotAssociated [] rfl rfl).1
      ⟨rfl,
        "The request was rejected. The specified S3 resource (bucket or prefix) is not associated with Macie.",
        "The request was rejected. The specified S3 resource (bucket or prefix) ", ".", rfl,
        by decide⟩⟩

/-- C2, as stated, fails: the response lists a failed item that is not the
not-associated condition (an access-denied item, in second place) and Delete
returns no diagnostic. -/
theorem delete_second_failed_item_not_surfaced :
    connTwoFailed.DisassociateS3ResourcesWithContext (deleteRequest sampleData) =
        Except.ok { FailedS3Resources := [sampleNotAssociated, sampleAccessDenied] } ∧
      notAssociated sampleAccessDenied = false ∧
      (resourceS3BucketAssociationDelete sampleHelpers sampleData connTwoFailed).diags = [] := by
  refine ⟨rfl, by decide, by decide⟩

/-- C2, amended: if the disassociate call returns an error, or the first item
of `FailedS3Resources` is not the not-associated condition, Delete returns
exactly one error diagnostic, whose text is "deleting Macie S3 bucket
association: " followed by the text of the call error, respectively of that
first failed item. -/
theorem delete_surfaces_failure (h : Helpers) (d : ResourceData) (conn : MacieConn)
    (text : String)
    (hfail : conn.DisassociateS3ResourcesWithContext (deleteRequest d) = Except.error text ∨
      ∃ resp failed rest,
        conn.DisassociateS3ResourcesWithContext (deleteRequest d) = Except.ok resp ∧
          resp.FailedS3Resources = failed :: rest ∧ notAssociated failed = false ∧
            text = h.failedString failed) :
    (resourceS3BucketAssociationDelete h d conn).diags =
        [{ Severity := Severity.Error
           Summary := "deleting Macie S3 bucket association: " ++ text }] ∧
      (resourceS3BucketAssociationDelete h d conn).diags.HasError = true := by
  have hdiags : (resourceS3BucketAssociationDelete h d conn).diags =
      [{ Severity := Severity.Error
         Summary := "deleting Macie S3 bucket association: " ++ text }] := by
    rcases hfail with herr | ⟨resp, failed, rest, hcall, hfailed, hn, rfl⟩
    · simp only [resourceS3BucketAssociationDelete, herr, AppendErrorf, List.nil_append]
    · rw [delete_ok_failed h d conn resp failed rest hcall hfailed, hn]
      rfl
  refine ⟨hdiags, ?_⟩
  rw [hdiags]
  simp [Diagnostics.HasError]

/-- C2 amended, at a call error and at a first failed item of another kind. -/
theorem delete_surfaces_failure_witness :
    (resourceS3BucketAssociationDelete sampleHelpers sampleData connErrors).diags =
        [{ Severity := Severity.Error
           Summary := "deleting Macie S3 bucket association: RequestError: send request failed" }] ∧
      (resourceS3BucketAssociationDelete sampleHelpers sampleData connFailedItem).diags.HasError =
        true :=
  ⟨(delete_surfaces_failure sampleHelpers sampleData connErrors
      "RequestError: send request failed" (Or.inl rfl)).1,
    (delete_surfaces_failure sampleHelpers sampleData connFailedItem
      (sampleHelpers.failedString sampleAccessDenied)
      (Or.inr ⟨{ FailedS3Resources := [sampleAccessDenied] }, sampleAccessDenied, [], rfl, rfl,
        by decide, rfl⟩)).2⟩

/-! ## The create path -/

/-- C3: when the associate call returns no error and an empty
`FailedS3Resources`, Create sets the ID to `bucket_name`, then "/", then
`prefix` (so to `bucket_name` and "/" when no prefix is configured) and
continues with Read on that data; afterwards the ID is that same string, or the
empty string, the latter exactly when the listing ended without error and
without a matching association. -/
theorem create_sets_composite_id (h : Helpers) (d : ResourceData) (conn : MacieConn)
    (resp : AssociateS3ResourcesOutput)
    (hcall : conn.AssociateS3ResourcesWithContext (createRequest h d) = Except.ok resp)
    (hempty : resp.FailedS3Resources = []) :
    (resourceS3BucketAssociationCreate h d conn).d =
        (resourceS3BucketAssociationRead h (d.SetId (d.bucket_name ++ "/" ++ d.prefix_)) conn).d ∧
      (d.SetId (d.bucket_name ++ "/" ++ d.prefix_)).id = d.bucket_name ++ "/" ++ d.prefix_ ∧
      (d.prefix_ = "" → (d.SetId (createId d)).id = d.bucket_name ++ "/") ∧
      ((resourceS3BucketAssociationCreate h d conn).d.id = d.bucket_name ++ "/" ++ d.prefix_ ∨
        (resourceS3BucketAssociationCreate h d conn).d.id = "") ∧
      ((resourceS3BucketAssociationCreate h d conn).d.id = "" ↔
        ((conn.ListS3ResourcesPagesWithContext (readRequest d)).err = none ∧
          ∀ u ∈ listedResources (conn.ListS3ResourcesPagesWithContext (readRequest d)),
            ¬ (StringValue u.BucketName = d.bucket_name ∧ StringValue u.Prefix = d.prefix_))) := by
  have hc := create_ok_empty h d conn resp hcall hempty
  have hid := read_id h (d.SetId (createId d)) conn
  have hne : d.bucket_name ++ "/" ++ d.prefix_ ≠ "" := by
    intro h0
    have hlen := congrArg String.length h0
    simp only [String.length_append] at hlen
    have h1 : "/".length = 1 := rfl
    have h0' : "".length = 0 := rfl
    omega
  have hd : (resourceS3BucketAssociationCreate h d conn).d.id =
      if (conn.ListS3ResourcesPagesWithContext (readRequest d)).err = none ∧
          ∀ u ∈ listedResources (conn.ListS3ResourcesPagesWithContext (readRequest d)),
            ¬ (StringValue u.BucketName = d.bucket_name ∧ StringValue u.Prefix = d.prefix_) then
        ""
      else
        d.bucket_name ++ "/" ++ d.prefix_ := by
    rw [hc]
    exact hid
  refine ⟨by rw [hc]; rfl, rfl, ?_, ?_, ?_⟩
  · intro hp
    simp [ResourceData.SetId, createId, hp]
  · rw [hd]
    split
    · exact Or.inr rfl
    · exact Or.inl rfl
  · rw [hd]
    constructor
    · intro hif
      by_contra hcond
      rw [if_neg hcond] at hif
      exact hne hif
    · intro hcond
      rw [if_pos hcond]

/-- C3, at a matching listing (the ID stays `tf-macie-example-002/`) . -/
theorem create_sets_composite_id_witness :
    connListed.AssociateS3ResourcesWithContext (createRequest sampleHelpers sampleData) =
        Except.ok { FailedS3Resources := [] } ∧
      (resourceS3BucketAssociationCreate sampleHelpers sampleData connListed).d.id =
        "tf-macie-example-002/" := by
  refine ⟨rfl, ?_⟩
  have hw := (create_sets_composite_id sampleHelpers sampleData connListed
    { FailedS3Resources := [] } rfl rfl).1
  rw [hw]
  decide

/-- C4: if the associate call returns an error, or its response has a non-empty
`FailedS3Resources`, Create returns one error diagnostic whose message is
"creating Macie S3 bucket association: " followed by the text of the call
error, respectively of the first failed item; the resource data, its ID
included, is left as it was, and the associate call is the only call issued. -/
theorem create_failure_leaves_no_id (h : Helpers) (d : ResourceData) (conn : MacieConn)
    (text : String)
    (hfail : conn.AssociateS3ResourcesWithContext (createRequest h d) = Except.error text ∨
      ∃ resp failed rest,
        conn.AssociateS3ResourcesWithContext (createRequest h d) = Except.ok resp ∧
          resp.FailedS3Resources = failed :: rest ∧ text = h.failedString failed) :
    (resourceS3BucketAssociationCreate h d conn).diags =
        [{ Severity := Severity.Error
           Summary := "creating Macie S3 bucket association: " ++ text }] ∧
      (resourceS3BucketAssociationCreate h d conn).diags.HasError = true ∧
      (resourceS3BucketAssociationCreate h d conn).d = d ∧
      (resourceS3BucketAssociationCreate h d conn).d.id = d.id ∧
      (resourceS3BucketAssociationCreate h d conn).calls =
        [Call.AssociateS3Resources (createRequest h d)] ∧
      ∀ req, Call.ListS3ResourcesPages req ∉ (resourceS3BucketAssociationCreate h d conn).calls := by
  rw [create_failed h d conn text hfail]
  refine ⟨rfl, by simp [Diagnostics.HasError], rfl, rfl, rfl, ?_⟩
  intro req hmem
  simp at hmem

/-- C4, at a call error and at a failed item. -/
theorem create_failure_leaves_no_id_witness :
    (resourceS3BucketAssociationCreate sampleHelpers sampleData connErrors).diags =
        [{ Severity := Severity.Error
           Summary := "creating Macie S3 bucket association: RequestError: send request failed" }] ∧
      (resourceS3BucketAssociationCreate sampleHelpers sampleData connFailedItem).d.id = "" :=
  ⟨(create_failure_leaves_no_id sampleHelpers sampleData connErrors
      "RequestError: send request failed" (Or.inl rfl)).1,
    (create_failure_leaves_no_id sampleHelpers sampleData connFailedItem
      (sampleHelpers.failedString sampleAccessDenied)
      (Or.inr ⟨{ FailedS3Resources := [sampleAccessDenied] }, sampleAccessDenied, [], rfl, rfl,
        rfl⟩)).2.2.2.1⟩

/-! ## The read path -/

/-- C5: for a listing returned without error, if no listed resource has the
configured bucket name and prefix (nil read as the empty string), Read sets the
ID to the empty string, returns no diagnostic and leaves `classification_type`
as it was; otherwise it sets `classification_type` from the first such resource
in page order and item order, leaves the ID as it was, and what it returns does
not depend on the items and pages after that resource. -/
theorem read_reflects_listing (h : Helpers) (d : ResourceData) (conn : MacieConn)
    (herr : (conn.ListS3ResourcesPagesWithContext (readRequest d)).err = none) :
    ((∀ u ∈ listedResources (conn.ListS3ResourcesPagesWithContext (readRequest d)),
          ¬ (StringValue u.BucketName = d.bucket_name ∧ StringValue u.Prefix = d.prefix_)) →
        (resourceS3BucketAssociationRead h d conn).d.id = "" ∧
          (resourceS3BucketAssociationRead h d conn).diags = [] ∧
          (resourceS3BucketAssociationRead h d conn).d.classification_type =
            d.classification_type ∧
          (resourceS3BucketAssociationRead h d conn).d = { d with id := "" }) ∧
      ∀ (pre post : List S3ResourceClassification) (v : S3ResourceClassification),
        listedResources (conn.ListS3ResourcesPagesWithContext (readRequest d)) =
            pre ++ v :: post →
          (StringValue v.BucketName = d.bucket_name ∧ StringValue v.Prefix = d.prefix_) →
          (∀ u ∈ pre,
            ¬ (StringValue u.BucketName = d.bucket_name ∧ StringValue u.Prefix = d.prefix_)) →
          (resourceS3BucketAssociationRead h d conn).d.classification_type =
              h.flattenClassificationType v.ClassificationType ∧
            (resourceS3BucketAssociationRead h d conn).d.id = d.id ∧
            (resourceS3BucketAssociationRead h d conn).diags = [] ∧
            (resourceS3BucketAssociationRead h d conn).d =
              { d with classification_type := h.flattenClassificationType v.ClassificationType } ∧
            ∀ (conn' : MacieConn) (post' : List S3ResourceClassification),
              listedResources (conn'.ListS3ResourcesPagesWithContext (readRequest d)) =
                  pre ++ v :: post' →
                (resourceS3BucketAssociationRead h d conn').diags =
                    (resourceS3BucketAssociationRead h d conn).diags ∧
                  (resourceS3BucketAssociationRead h d conn').d =
                    (resourceS3BucketAssociationRead h d conn).d := by
  constructor
  · intro hno
    have hr := read_not_found h d conn hno
    rw [herr] at hr
    rw [hr]
    exact ⟨rfl, rfl, rfl, rfl⟩
  · intro pre post v hl hv hpre
    have hr := read_found h d conn pre post v hl hv hpre
    refine ⟨by rw [hr], by rw [hr], by rw [hr], by rw [hr], ?_⟩
    intro conn' post' hl'
    rw [hr, read_found h d conn' pre post' v hl' hv hpre]
    exact ⟨rfl, rfl⟩

/-- C5, at a listing whose second page holds the matching resource, after a
resource of another bucket and before another one. -/
theorem read_reflects_listing_witness :
    (connListed.ListS3ResourcesPagesWithContext (readRequest sampleData)).err = none ∧
      (resourceS3BucketAssociationRead sampleHelpers sampleData connListed).d.classification_type =
        [{ continuous := "FULL", one_time := "NONE" }] ∧
      (resourceS3BucketAssociationRead sampleHelpers sampleData connAllOk).d.id = "" :=
  ⟨rfl,
    ((read_reflects_listing sampleHelpers sampleData connListed rfl).2 [sampleOther] [sampleOther]
      sampleListed rfl (by decide) (by decide)).1,
    ((read_reflects_listing sampleHelpers sampleData connAllOk rfl).1 (by decide)).1⟩

/-! ## Requests and calls -/

/-- C7: the requests built by Create, Update and Delete hold exactly one
resource entry, whose `BucketName` is the configured `bucket_name` and whose
`Prefix` is the configured `prefix` if that is non-empty and nil otherwise; the
`MemberAccountId` of these requests and of the list request of Read is the
configured `member_account_id` if that is non-empty and nil otherwise; and these
are the requests the handlers send (Update sends its update request when
`classification_type` has changed). -/
theorem requests_marshal_optional_fields (h : Helpers) (d : ResourceData) (conn : MacieConn) :
    createRequest h d =
        { MemberAccountId := if d.member_account_id = "" then none else some d.member_account_id
          S3Resources :=
            [{ BucketName := some d.bucket_name
               ClassificationType := h.expandClassificationType d
               Prefix := if d.prefix_ = "" then none else some d.prefix_ }] } ∧
      updateRequest h d =
        { MemberAccountId := if d.member_account_id = "" then none else some d.member_account_id
          S3ResourcesUpdate :=
            [{ BucketName := some d.bucket_name
               ClassificationTypeUpdate := h.expandClassificationTypeUpdate d
               Prefix := if d.prefix_ = "" then none else some d.prefix_ }] } ∧
      deleteRequest d =
        { AssociatedS3Resources :=
            [{ BucketName := some d.bucket_name
               Prefix := if d.prefix_ = "" then none else some d.prefix_ }]
          MemberAccountId :=
            if d.member_account_id = "" then none else some d.member_account_id } ∧
      readRequest d =
        { MemberAccountId :=
            if d.member_account_id = "" then none else some d.member_account_id } ∧
      (resourceS3BucketAssociationCreate h d conn).calls.head? =
        some (Call.AssociateS3Resources (createRequest h d)) ∧
      (resourceS3BucketAssociationUpdate h d conn).calls.head? =
        some (if d.HasChangeClassificationType then Call.UpdateS3Resources (updateRequest h d)
          else Call.ListS3ResourcesPages (readRequest d)) ∧
      (resourceS3BucketAssociationDelete h d conn).calls =
        [Call.DisassociateS3Resources (deleteRequest d)] ∧
      (resourceS3BucketAssociationRead h d conn).calls =
        [Call.ListS3ResourcesPages (readRequest d)] := by
  refine ⟨createRequest_eq h d, updateRequest_eq h d, deleteRequest_eq d, readRequest_eq d,
    ?_, ?_, delete_calls h d conn, read_calls h d conn⟩
  · unfold resourceS3BucketAssociationCreate
    simp only []
    split
    · rfl
    · split <;> rfl
  · cases hc : d.HasChangeClassificationType with
    | false =>
      rw [update_unchanged h d conn hc, read_calls]
      rfl
    | true =>
      unfold resourceS3BucketAssociationUpdate
      simp only [hc, if_true]
      split
      · rfl
      · split <;> rfl

/-- C8, as stated, fails: on a client whose associate call succeeds, Create
issues two calls, the associate call and then the list call. -/
theorem create_issues_two_calls :
    (resourceS3BucketAssociationCreate sampleHelpers sampleData connAllOk).calls =
        [Call.AssociateS3Resources
            { MemberAccountId := none
              S3Resources :=
                [{ BucketName := some "tf-macie-example-002"
                   ClassificationType := some { Continuous := some "FULL", OneTime := some "NONE" }
                   Prefix := none }] },
          Call.ListS3ResourcesPages { MemberAccountId := none }] ∧
      (resourceS3BucketAssociationCreate sampleHelpers sampleData connAllOk).calls.length ≠ 1 := by
  refine ⟨by decide, by decide⟩

/-- C8, amended: Delete issues exactly one call, the disassociate call, and
Read exactly one, the paginated list call.  Create issues the associate call
and, exactly when that returns no error and no failed item, the list call after
it.  Update issues only the list call when `classification_type` has not
changed; when it has, it issues the update call and, exactly when that returns
no error and no failed item, the list call after it. -/
theorem calls_issued (h : Helpers) (d : ResourceData) (conn : MacieConn) :
    (resourceS3BucketAssociationDelete h d conn).calls =
        [Call.DisassociateS3Resources (deleteRequest d)] ∧
      (resourceS3BucketAssociationRead h d conn).calls =
        [Call.ListS3ResourcesPages (readRequest d)] ∧
      (resourceS3BucketAssociationCreate h d conn).calls =
        (match conn.AssociateS3ResourcesWithContext (createRequest h d) with
        | Except.error _ => [Call.AssociateS3Resources (createRequest h d)]
        | Except.ok resp =>
          if resp.FailedS3Resources = [] then
            [Call.AssociateS3Resources (createRequest h d),
              Call.ListS3ResourcesPages (readRequest d)]
          else
            [Call.AssociateS3Resources (createRequest h d)]) ∧
      (resourceS3BucketAssociationUpdate h d conn).calls =
        (if d.HasChangeClassificationType then
          match conn.UpdateS3ResourcesWithContext (updateRequest h d) with
          | Except.error _ => [Call.UpdateS3Resources (updateRequest h d)]
          | Except.ok resp =>
            if resp.FailedS3Resources = [] then
              [Call.UpdateS3Resources (updateRequest h d),
                Call.ListS3ResourcesPages (readRequest d)]
            else
              [Call.UpdateS3Resources (updateRequest h d)]
        else
          [Call.ListS3ResourcesPages (readRequest d)]) := by
  refine ⟨delete_calls h d conn, read_calls h d conn, ?_, ?_⟩
  · cases hcall : conn.AssociateS3ResourcesWithContext (createRequest h d) with
    | error e =>
      rw [create_failed h d conn e (Or.inl hcall)]
    | ok resp =>
      cases hf : resp.FailedS3Resources with
      | nil =>
        rw [create_ok_empty h d conn resp hcall hf, read_calls]
        dsimp only
        rw [hf]
        exact (if_pos rfl).symm
      | cons failed rest =>
        rw [create_failed h d conn (h.failedString failed)
          (Or.inr ⟨resp, failed, rest, hcall, hf, rfl⟩)]
        dsimp only
        rw [hf]
        exact (if_neg (List.cons_ne_nil _ _)).symm
  · cases hc : d.HasChangeClassificationType with
    | false =>
      rw [update_unchanged h d conn hc, read_calls]
      simp
    | true =>
      simp only [if_true]
      cases hcall : conn.UpdateS3ResourcesWithContext (updateRequest h d) with
      | error e =>
        rw [update_failed h d conn e hc (Or.inl hcall)]
      | ok resp =>
        cases hf : resp.FailedS3Resources with
        | nil =>
          rw [update_ok_empty h d conn resp hc hcall hf, read_calls]
          dsimp only
          rw [hf]
          exact (if_pos rfl).symm
        | cons failed rest =>
          rw [update_failed h d conn (h.failedString failed) hc
            (Or.inr ⟨resp, failed, rest, hcall, hf, rfl⟩)]
          dsimp only
          rw [hf]
          exact (if_neg (List.cons_ne_nil _ _)).symm

/-! ## The update path -/

/-- C9: when `classification_type` has no pending change, Update issues no
update call and returns exactly what Read returns on the same data; when it has
changed and the update call returns an error or a non-empty
`FailedS3Resources`, Update returns an error diagnostic, leaves the data as it
was and issues no list call. -/
theorem update_is_refresh_or_fails (h : Helpers) (d : ResourceData) (conn : MacieConn) :
    (d.HasChangeClassificationType = false →
        resourceS3BucketAssociationUpdate h d conn = resourceS3BucketAssociationRead h d conn ∧
          (resourceS3BucketAssociationUpdate h d conn).diags =
            (resourceS3BucketAssociationRead h d conn).diags ∧
          (resourceS3BucketAssociationUpdate h d conn).d =
            (resourceS3BucketAssociationRead h d conn).d ∧
          ∀ req, Call.UpdateS3Resources req ∉ (resourceS3BucketAssociationUpdate h d conn).calls) ∧
      (d.HasChangeClassificationType = true →
        ((∃ err, conn.UpdateS3ResourcesWithContext (updateRequest h d) = Except.error err) ∨
          ∃ resp, conn.UpdateS3ResourcesWithContext (updateRequest h d) = Except.ok resp ∧
            resp.FailedS3Resources ≠ []) →
        (resourceS3BucketAssociationUpdate h d conn).diags.HasError = true ∧
          (resourceS3BucketAssociationUpdate h d conn).d = d ∧
          (resourceS3BucketAssociationUpdate h d conn).calls =
            [Call.UpdateS3Resources (updateRequest h d)] ∧
          ∀ req, Call.ListS3ResourcesPages req ∉
            (resourceS3BucketAssociationUpdate h d conn).calls) := by
  constructor
  · intro hc
    have hu := update_unchanged h d conn hc
    refine ⟨hu, by rw [hu], by rw [hu], ?_⟩
    intro req hmem
    rw [hu, read_calls] at hmem
    simp at hmem
  · intro hc hfail
    have hex : ∃ text, resourceS3BucketAssociationUpdate h d conn =
        { diags := [{ Severity := Severity.Error
                      Summary := "updating Macie S3 bucket association: " ++ text }]
          d := d
          calls := [Call.UpdateS3Resources (updateRequest h d)] } := by
      rcases hfail with ⟨err, herr⟩ | ⟨resp, hcall, hne⟩
      · exact ⟨err, update_failed h d conn err hc (Or.inl herr)⟩
      · cases hf : resp.FailedS3Resources with
        | nil => exact absurd hf hne
        | cons failed rest =>
          exact ⟨h.failedString failed,
            update_failed h d conn _ hc (Or.inr ⟨resp, failed, rest, hcall, hf, rfl⟩)⟩
    obtain ⟨text, hu⟩ := hex
    rw [hu]
    refine ⟨by simp [Diagnostics.HasError], rfl, rfl, ?_⟩
    intro req hmem
    simp at hmem

/-- C9, at data without a pending change and at data with one whose update
call fails. -/
theorem update_is_refresh_or_fails_witness :
    sampleData.HasChangeClassificationType = false ∧
      resourceS3BucketAssociationUpdate sampleHelpers sampleData connListed =
        resourceS3BucketAssociationRead sampleHelpers sampleData connListed ∧
      sampleChanged.HasChangeClassificationType = true ∧
      (resourceS3BucketAssociationUpdate sampleHelpers sampleChanged connErrors).calls =
        [Call.UpdateS3Resources (updateRequest sampleHelpers sampleChanged)] :=
  ⟨by decide,
    ((update_is_refresh_or_fails sampleHelpers sampleData connListed).1 (by decide)).1,
    by decide,
    ((update_is_refresh_or_fails sampleHelpers sampleChanged connErrors).2 (by decide)
      (Or.inl ⟨"RequestError: send request failed", rfl⟩)).2.2.1⟩

/-! ## The composite ID -/

/-- C10: for bucket names without "/", the ID Create formats from
(`bucket_name`, `prefix`) determines both: equal IDs imply equal bucket names
and equal prefixes.  The ID does not depend on `member_account_id`: data that
differ only there get the same ID. -/
theorem createId_identifies_pair (d₁ d₂ : ResourceData)
    (h₁ : '/' ∉ d₁.bucket_name.data) (h₂ : '/' ∉ d₂.bucket_name.data) :
    (d₁.bucket_name ++ "/" ++ d₁.prefix_ = d₂.bucket_name ++ "/" ++ d₂.prefix_ →
        d₁.bucket_name = d₂.bucket_name ∧ d₁.prefix_ = d₂.prefix_) ∧
      (createId d₁ = createId d₂ → d₁.bucket_name = d₂.bucket_name ∧ d₁.prefix_ = d₂.prefix_) ∧
      ∀ account : String, createId { d₁ with member_account_id := account } = createId d₁ := by
  have key : d₁.bucket_name ++ "/" ++ d₁.prefix_ = d₂.bucket_name ++ "/" ++ d₂.prefix_ →
      d₁.bucket_name = d₂.bucket_name ∧ d₁.prefix_ = d₂.prefix_ := by
    intro heq
    have hdata := congrArg String.data heq
    simp only [String.data_append, List.append_assoc] at hdata
    obtain ⟨hb, hp⟩ := split_at_slash _ _ _ _ h₁ h₂ hdata
    exact ⟨String.ext hb, String.ext hp⟩
  exact ⟨key, key, fun _ => rfl⟩

/-- C10, at `a/b/c`: bucket `a` with prefix `b/c`, for two member accounts. -/
theorem createId_identifies_pair_witness :
    '/' ∉ ({ sampleData with bucket_name := "a", prefix_ := "b/c" } : ResourceData).bucket_name.data ∧
      createId { sampleData with bucket_name := "a", prefix_ := "b/c", member_account_id := "123456789012" } =
        createId { sampleData with bucket_name := "a", prefix_ := "b/c" } :=
  ⟨by decide,
    (createId_identifies_pair
      { sampleData with bucket_name := "a", prefix_ := "b/c" }
      { sampleData with bucket_name := "a", prefix_ := "b/c" }
      (by decide) (by decide)).2.2 "123456789012"⟩

end Macie

namespace MediaLive

/-! ## The registration tables -/

/-- C6: `SDKResources` returns exactly four entries, in order
`aws_medialive_channel` with `ResourceChannel`, `aws_medialive_input` with
`ResourceInput`, `aws_medialive_input_security_group` with
`ResourceInputSecurityGroup` and `aws_medialive_multiplex` with
`ResourceMultiplex`; the four type names are pairwise distinct and non-empty;
`SDKDataSources` and `FrameworkDataSources` return empty tables and
`FrameworkResources` exactly one entry; and each result is the same for every
context argument. -/
theorem service_package_tables {Context : Type} (ctx ctx' : Context) :
    ServicePackage.SDKResources ctx =
        [ { Factory := SDKFactory.ResourceChannel, TypeName := "aws_medialive_channel" },
          { Factory := SDKFactory.ResourceInput, TypeName := "aws_medialive_input" },
          { Factory := SDKFactory.ResourceInputSecurityGroup
            TypeName := "aws_medialive_input_security_group" },
          { Factory := SDKFactory.ResourceMultiplex, TypeName := "aws_medialive_multiplex" } ] ∧
      (ServicePackage.SDKResources ctx).length = 4 ∧
      ((ServicePackage.SDKResources ctx).map fun r => r.TypeName).Nodup ∧
      (∀ r ∈ ServicePackage.SDKResources ctx, r.TypeName ≠ "") ∧
      (∀ r₁ ∈ ServicePackage.SDKResources ctx, ∀ r₂ ∈ ServicePackage.SDKResources ctx,
        r₁.TypeName = r₂.TypeName → r₁.Factory = r₂.Factory) ∧
      ServicePackage.SDKDataSources ctx = [] ∧
      (ServicePackage.FrameworkDataSources ctx).length = 0 ∧
      ServicePackage.FrameworkResources ctx =
        [{ Factory := FrameworkResourceFactory.newResourceMultiplexProgram }] ∧
      (ServicePackage.FrameworkResources ctx).length = 1 ∧
      ServicePackage.SDKResources ctx = ServicePackage.SDKResources ctx' ∧
      ServicePackage.SDKDataSources ctx = ServicePackage.SDKDataSources ctx' ∧
      ServicePackage.FrameworkDataSources ctx = ServicePackage.FrameworkDataSources ctx' ∧
      ServicePackage.FrameworkResources ctx = ServicePackage.FrameworkResources ctx' := by
  refine ⟨rfl, rfl, ?_, ?_, ?_, rfl, rfl, rfl, rfl, rfl, rfl, rfl, rfl⟩
  · simp [servicePackage.SDKResources]
  · simp [servicePackage.SDKResources]
  · simp [servicePackage.SDKResources]

end MediaLive
